import Mathlib

/-!
# Verification of the RAW Labour Hire Timesheet mobile client: session / API layer

Shallow embedding of the two modules the specification's session-layer
properties are about:

* `src/mobile-app/src/services/api.ts` — the axios HTTP client wrapper:
  module-level bearer token (`authToken`), `setAuthToken`, the request
  interceptor (attaches `Authorization: Bearer <token>` when the module
  token is truthy, at send time) and the response interceptor (logs on 401
  and re-rejects the error unchanged).

* `src/mobile-app/src/context/AuthContext.tsx` — the session store:
  in-memory `user`/`token`/`isLoading` state, the secure-storage records
  under keys `raw_auth_token` and `raw_user_data`, and the operations
  `loadStoredAuth`, `login`, `register`, `logout`, `updateUser`.

Modelling conventions:

* JavaScript string truthiness (`if (authToken)`, `!!token`,
  `storedToken && storedUser`) is modelled by `truthyStr`: an `Option String`
  is truthy iff it is `some` of a non-empty string.
* Async effects are modelled by explicit state passing over `World`.
  External outcomes (server responses, secure-storage failures) are inputs:
  each SecureStore call takes a `Bool` saying whether it succeeds or throws,
  and each HTTP call takes a `server : Request → HttpOutcome α` stub.
  A storage call that throws performs no write.
* `JSON.stringify` / `JSON.parse` of the user record are modelled by the
  `StoredUser` codec: `StoredUser.valid u` stands for a JSON text that
  parses to the record `u` (in particular any `JSON.stringify` output),
  `StoredUser.malformed n` for a non-empty text on which `JSON.parse`
  throws.  An empty stored string is JS-falsy and therefore behaves exactly
  like an absent record, so absence subsumes it.
* Every state mutation and HTTP call appends a ghost `Event` to
  `World.trace`, so ordering claims ("sets the client token before
  publishing state", "clears storage, then the client token, then memory")
  are provable as trace equalities.  `console.log` / `console.error`
  output is collected in `World.log`.
-/

/-- User record, from the `User` interface of AuthContext.tsx. -/
structure User where
  id : Nat
  email : String
  first_name : String
  surname : String
  phone : Option String
  role : String
deriving DecidableEq, Repr

/-- Registration payload, from the `RegisterData` interface of AuthContext.tsx. -/
structure RegisterData where
  email : String
  password : String
  first_name : String
  surname : String
  phone : Option String
deriving DecidableEq, Repr

/-- A JSON text stored under the user key: either the serialization of a
user record (it parses back to that record), or a malformed text on which
`JSON.parse` throws.  `JSON.stringify` of a user record always yields a
`valid` text. -/
inductive StoredUser where
  | valid (u : User)
  | malformed (tag : Nat)
deriving DecidableEq, Repr

/-- `JSON.parse` on a stored user text: returns the record for a valid
text, throws (`none`) on a malformed one. -/
def parseStored : StoredUser → Option User
  | .valid u => some u
  | .malformed _ => none

/-- JS truthiness of a nullable string: truthy iff non-null and non-empty. -/
def truthyStr : Option String → Bool
  | none => false
  | some s => !s.isEmpty

/-- Request body, as constructed by the client code: `URLSearchParams`
form data (login), a JSON body of registration fields (register), or an
empty body (plain facade GETs). -/
inductive Body where
  | empty
  | form (params : List (String × String))
  | jsonRegister (d : RegisterData)
deriving DecidableEq, Repr

/-- An outgoing HTTP request (axios config): method, url, body,
Content-Type header, and the Authorization header if set. -/
structure Request where
  method : String
  url : String
  body : Body
  contentType : String
  authorization : Option String
deriving DecidableEq, Repr

/-- An axios rejection as observed by the client code: `status` is
`response.status` when a response exists (`none` for a network error),
`detail` is `response.data.detail` when the body carries one. -/
structure ApiError where
  status : Option Nat
  detail : Option String
deriving DecidableEq, Repr

/-- Outcome of one HTTP round trip: a 2xx response carrying decoded data,
or a rejection. -/
inductive HttpOutcome (α : Type) where
  | ok (val : α)
  | err (e : ApiError)

/-- Decoded body of a successful `/auth/login` response:
`{access_token, user}`. -/
structure LoginData where
  access_token : String
  user : User
deriving DecidableEq, Repr

/-- Ghost trace event: one per state mutation or HTTP call, in program
order.  `storeSet`/`storeDelete` record SecureStore writes by key,
`clientToken` records `setAuthToken`, `stateToken`/`stateUser`/
`stateLoading` record the React state setters. -/
inductive Event where
  | httpCall (req : Request)
  | storeSet (key : String)
  | storeDelete (key : String)
  | clientToken (t : Option String)
  | stateToken (t : Option String)
  | stateUser (u : Option User)
  | stateLoading (b : Bool)
deriving DecidableEq, Repr

/-- The whole observable state: the in-memory session store
(`user`, `token`, `isLoading`), the HTTP client's module-level token
(`authToken`), the two secure-storage records, the console log, and the
ghost event trace. -/
structure World where
  user : Option User
  token : Option String
  isLoading : Bool
  authToken : Option String
  storageToken : Option String
  storageUser : Option StoredUser
  log : List String
  trace : List Event
deriving Repr

/-- Storage key for the bearer token (`TOKEN_KEY` in AuthContext.tsx). -/
def TOKEN_KEY : String := "raw_auth_token"

/-- Storage key for the user record (`USER_KEY` in AuthContext.tsx). -/
def USER_KEY : String := "raw_user_data"

/-- React state setter `setToken`. -/
def setToken (t : Option String) (w : World) : World :=
  { w with token := t, trace := w.trace ++ [.stateToken t] }

/-- React state setter `setUser`. -/
def setUser (u : Option User) (w : World) : World :=
  { w with user := u, trace := w.trace ++ [.stateUser u] }

/-- React state setter `setIsLoading`. -/
def setIsLoading (b : Bool) (w : World) : World :=
  { w with isLoading := b, trace := w.trace ++ [.stateLoading b] }

/-- The console line `setAuthToken` prints (JS truthiness on the string). -/
def authTokenLog (t : Option String) : String :=
  if truthyStr t then "[API] Auth token SET" else "[API] Auth token CLEARED"

/-- `setAuthToken` from api.ts: writes the module-level token and logs
whether it was set or cleared. -/
def setAuthToken (t : Option String) (w : World) : World :=
  { w with authToken := t,
           trace := w.trace ++ [.clientToken t],
           log := w.log ++ [authTokenLog t] }

/-- A fresh axios request config before interception: no Authorization
header. -/
def mkRequest (method url : String) (body : Body) (contentType : String) : Request :=
  { method := method, url := url, body := body,
    contentType := contentType, authorization := none }

/-- The console line the request interceptor prints. -/
def requestLogLine (method url : String) (w : World) : String :=
  "[API] " ++ method ++ " " ++ url ++ " (token: "
    ++ (if truthyStr w.authToken then "YES" else "NO") ++ ")"

/-- The request interceptor of api.ts: reads the module token at send
time; if it is truthy, sets the Authorization header to `Bearer <token>`;
logs the request either way. -/
def requestInterceptor (config : Request) (w : World) : Request × World :=
  let config' :=
    match w.authToken with
    | some t => if t.isEmpty then config
                else { config with authorization := some ("Bearer " ++ t) }
    | none => config
  (config', { w with log := w.log ++ [requestLogLine config.method config.url w] })

/-- The console output of the response interceptor's rejection handler:
one line when the status is 401, nothing otherwise. -/
def unauthorizedLog (e : ApiError) : List String :=
  if e.status = some 401
  then ["[API] Unauthorized - token may be expired or missing"]
  else []

/-- The response interceptor's rejection handler of api.ts: logs on 401,
then re-rejects the very same error. -/
def responseErrorInterceptor (e : ApiError) (w : World) : World × ApiError :=
  ({ w with log := w.log ++ unauthorizedLog e }, e)

/-- One round trip through the shared axios instance: build the config,
run the request interceptor (which reads the current module token), hit
the server, and run the response interceptor's rejection handler on
failure.  The success handler is the identity. -/
def apiRequest {α : Type} (method url : String) (body : Body) (contentType : String)
    (server : Request → HttpOutcome α) (w : World) : World × HttpOutcome α :=
  let (req, w1) := requestInterceptor (mkRequest method url body contentType) w
  let w2 := { w1 with trace := w1.trace ++ [.httpCall req] }
  match server req with
  | .ok v => (w2, .ok v)
  | .err e =>
      let (w3, e') := responseErrorInterceptor e w2
      (w3, .err e')

/-- The request actually handed to the server by `apiRequest`: the fresh
config after the request interceptor ran against the current world. -/
def sentRequest (method url : String) (body : Body) (contentType : String)
    (w : World) : Request :=
  (requestInterceptor (mkRequest method url body contentType) w).1

/-- The `URLSearchParams` built by `login`: username and password fields. -/
def loginFormParams (email password : String) : List (String × String) :=
  [("username", email), ("password", password)]

/-- The request `login` sends: POST `/auth/login`, form-urlencoded body,
after interception against the current world. -/
def loginSentRequest (email password : String) (w : World) : Request :=
  sentRequest "POST" "/auth/login" (.form (loginFormParams email password))
    "application/x-www-form-urlencoded" w

/-- The message extraction pattern `error.response?.data?.detail || fallback`
used by the catch blocks: the detail field when present and truthy
(non-empty), the fallback otherwise. -/
def detailOr (e : ApiError) (fallback : String) : String :=
  match e.detail with
  | some d => if d.isEmpty then fallback else d
  | none => fallback

/-- `login` from AuthContext.tsx.  Posts the form-encoded credentials,
then on success: persists the token, persists the serialized user, sets
the client token, sets the in-memory token, sets the in-memory user — in
that order.  Any rejection (HTTP or storage) is caught and rethrown as
`Error(detail || 'Login failed')`; a storage error carries no `response`
field so it always maps to the generic message.  `okStoreToken` /
`okStoreUser` say whether the two SecureStore writes succeed; a failing
write performs no write. -/
def login (email password : String) (server : Request → HttpOutcome LoginData)
    (okStoreToken okStoreUser : Bool) (w : World) : World × Except String Unit :=
  match apiRequest "POST" "/auth/login" (.form (loginFormParams email password))
      "application/x-www-form-urlencoded" server w with
  | (w1, .err e) => (w1, .error (detailOr e "Login failed"))
  | (w1, .ok d) =>
    if okStoreToken = false then (w1, .error "Login failed")
    else
      let w2 := { w1 with storageToken := some d.access_token,
                          trace := w1.trace ++ [.storeSet TOKEN_KEY] }
      if okStoreUser = false then (w2, .error "Login failed")
      else
        let w3 := { w2 with storageUser := some (.valid d.user),
                            trace := w2.trace ++ [.storeSet USER_KEY] }
        let w4 := setAuthToken (some d.access_token) w3
        let w5 := setToken (some d.access_token) w4
        let w6 := setUser (some d.user) w5
        (w6, .ok ())

/-- `register` from AuthContext.tsx: POST the registration fields as JSON,
then on success immediately `login` with the same email and password.  The
catch block computes `error.response?.data?.detail || 'Registration failed'`;
the error thrown by the internal `login` is a plain `Error` with no
`response` field, so a login failure always surfaces as the generic
`Registration failed`. -/
def register (d : RegisterData) (regServer : Request → HttpOutcome Unit)
    (loginServer : Request → HttpOutcome LoginData)
    (okStoreToken okStoreUser : Bool) (w : World) : World × Except String Unit :=
  match apiRequest "POST" "/auth/register" (.jsonRegister d) "application/json"
      regServer w with
  | (w1, .err e) => (w1, .error (detailOr e "Registration failed"))
  | (w1, .ok _) =>
    match login d.email d.password loginServer okStoreToken okStoreUser w1 with
    | (w2, .ok _) => (w2, .ok ())
    | (w2, .error _) => (w2, .error "Registration failed")

/-- `logout` from AuthContext.tsx: delete the token record, delete the
user record, clear the client token, clear the in-memory token, clear the
in-memory user.  The whole body is wrapped in try/catch with only a
console.error in the catch, so logout always resolves; a throwing
SecureStore delete (flag `false`) skips every remaining step. -/
def logout (okDeleteToken okDeleteUser : Bool) (w : World) : World :=
  if okDeleteToken = false then { w with log := w.log ++ ["Error logging out:"] }
  else
    let w1 := { w with storageToken := none,
                       trace := w.trace ++ [Event.storeDelete TOKEN_KEY] }
    if okDeleteUser = false then { w1 with log := w1.log ++ ["Error logging out:"] }
    else
      let w2 := { w1 with storageUser := none,
                          trace := w1.trace ++ [Event.storeDelete USER_KEY] }
      setUser none (setToken none (setAuthToken none w2))

/-- `Partial<User>`: each field optionally present. -/
structure UserPatch where
  id : Option Nat := none
  email : Option String := none
  first_name : Option String := none
  surname : Option String := none
  phone : Option String := none
  role : Option String := none
deriving DecidableEq, Repr

/-- The object spread `{...user, ...userData}`: fields present in the
patch override, all others keep the prior value. -/
def mergeUser (u : User) (p : UserPatch) : User :=
  { id := p.id.getD u.id,
    email := p.email.getD u.email,
    first_name := p.first_name.getD u.first_name,
    surname := p.surname.getD u.surname,
    phone := match p.phone with | some v => some v | none => u.phone,
    role := p.role.getD u.role }

/-- `updateUser` from AuthContext.tsx: when a user is logged in, merge the
patch, publish the merged user to in-memory state, then persist it; no
HTTP call is made.  A throwing SecureStore write (flag `false`) is caught
and only logged — the in-memory update has already happened. -/
def updateUser (p : UserPatch) (okStore : Bool) (w : World) : World :=
  match w.user with
  | none => w
  | some u =>
    let updatedUser := mergeUser u p
    let w1 := setUser (some updatedUser) w
    if okStore then
      { w1 with storageUser := some (.valid updatedUser),
                trace := w1.trace ++ [.storeSet USER_KEY] }
    else { w1 with log := w1.log ++ ["Error updating user:"] }

/-- `loadStoredAuth` from AuthContext.tsx (restoreSession): read both
records; if both are truthy, `setToken(storedToken)` first, then
`setUser(JSON.parse(storedUser))`, then `setAuthToken(storedToken)`.  A
throwing read or a `JSON.parse` throw lands in the catch (console.error
only); the finally clause always clears the loading flag.  Note the
program order: a parse throw happens after `setToken` already ran and
before `setAuthToken`. -/
def loadStoredAuth (okReadToken okReadUser : Bool) (w : World) : World :=
  let w' :=
    if okReadToken = false then { w with log := w.log ++ ["Error loading auth:"] }
    else if okReadUser = false then { w with log := w.log ++ ["Error loading auth:"] }
    else
      match w.storageToken, w.storageUser with
      | some tok, some su =>
        if tok.isEmpty then w
        else
          let w1 := setToken (some tok) w
          match parseStored su with
          | some u => setAuthToken (some tok) (setUser (some u) w1)
          | none => { w1 with log := w1.log ++ ["Error loading auth:"] }
      | _, _ => w
  setIsLoading false w'

/-- `isAuthenticated` as published by the provider: `!!token` — JS double
negation, so an empty-string token counts as not authenticated. -/
def isAuthenticated (w : World) : Bool :=
  truthyStr w.token

/-- The world at first process start: no in-memory session, loading flag
up (`useState(true)`), module token null, empty storage. -/
def initialWorld : World :=
  { user := none, token := none, isLoading := true, authToken := none,
    storageToken := none, storageUser := none, log := [], trace := [] }

/-- One session operation together with the external outcomes it runs
against.  `restartApp` models a process restart: in-memory state and the
module token reset to their initial values while secure storage persists. -/
inductive Op where
  | load (okReadToken okReadUser : Bool)
  | doLogin (email password : String) (server : Request → HttpOutcome LoginData)
      (okStoreToken okStoreUser : Bool)
  | doRegister (d : RegisterData) (regServer : Request → HttpOutcome Unit)
      (loginServer : Request → HttpOutcome LoginData)
      (okStoreToken okStoreUser : Bool)
  | doLogout (okDeleteToken okDeleteUser : Bool)
  | doUpdateUser (p : UserPatch) (okStore : Bool)
  | restartApp

/-- Run one operation, discarding the promise result. -/
def runOp : Op → World → World
  | .load r1 r2, w => loadStoredAuth r1 r2 w
  | .doLogin e p s o1 o2, w => (login e p s o1 o2 w).1
  | .doRegister d rs ls o1 o2, w => (register d rs ls o1 o2 w).1
  | .doLogout o1 o2, w => logout o1 o2 w
  | .doUpdateUser p o, w => updateUser p o w
  | .restartApp, w =>
      { w with user := none, token := none, isLoading := true, authToken := none }

/-- Run a sequence of operations from left to right. -/
def runOps (ops : List Op) (w : World) : World :=
  ops.foldl (fun w op => runOp op w) w

/-- Storage-content wellformedness: the persisted user record, when
present, is one that `JSON.parse` accepts.  Every write the app itself
performs stores `JSON.stringify` of a user record, so this holds in every
reachable state. -/
def StoredOk : Option StoredUser → Prop
  | none => True
  | some (.valid _) => True
  | some (.malformed _) => False

/-- The session-store invariant together with the auxiliary storage
wellformedness needed to make it inductive. -/
def SessionInv (w : World) : Prop :=
  (w.token = none ↔ w.user = none) ∧ StoredOk w.storageUser

/-- Concrete user record for witnesses: user 7 of the spec scenario. -/
def u7 : User :=
  { id := 7, email := "user@example.com", first_name := "Site",
    surname := "Worker", phone := none, role := "worker" }

/-- Concrete successful login payload: token `tok1`, user 7. -/
def d7 : LoginData := { access_token := "tok1", user := u7 }

/-- Server stub that accepts any login with token `tok1` and user 7. -/
def stubOk : Request → HttpOutcome LoginData := fun _ => .ok d7

/-- Server stub that accepts the login but returns an empty access token. -/
def stubEmptyToken : Request → HttpOutcome LoginData :=
  fun _ => .ok { access_token := "", user := u7 }

/-- Server stub that rejects every login with a 401 carrying a detail
message. -/
def stubInvalid : Request → HttpOutcome LoginData :=
  fun _ => .err { status := some 401, detail := some "Invalid credentials" }

/-- Registration-endpoint stub that accepts every registration. -/
def regStubOk : Request → HttpOutcome Unit := fun _ => .ok ()

/-- Concrete registration payload for witnesses. -/
def regData0 : RegisterData :=
  { email := "user@example.com", password := "secret123",
    first_name := "Site", surname := "Worker", phone := none }

/-- Concrete 401 error for witnesses. -/
def err401 : ApiError := { status := some 401, detail := some "Session expired" }

/-- Is a trace event an HTTP call? -/
def isHttpCall : Event → Bool
  | .httpCall _ => true
  | _ => false

/-- Server stub that rejects every request with the 401 error `err401`. -/
def errStub : Request → HttpOutcome Unit := fun _ => .err err401

theorem apiRequest_ok {α : Type} {server : Request → HttpOutcome α} {v : α}
    {method url : String} {body : Body} {ct : String} {w : World}
    (h : server (sentRequest method url body ct w) = .ok v) :
    apiRequest method url body ct server w =
      ({ w with log := w.log ++ [requestLogLine method url w],
                trace := w.trace ++ [.httpCall (sentRequest method url body ct w)] },
       .ok v) := by
  unfold sentRequest at h
  unfold apiRequest
  simp only [requestInterceptor] at h ⊢
  rw [h]
  simp [sentRequest, requestInterceptor, mkRequest]

theorem apiRequest_err {α : Type} {server : Request → HttpOutcome α} {e : ApiError}
    {method url : String} {body : Body} {ct : String} {w : World}
    (h : server (sentRequest method url body ct w) = .err e) :
    apiRequest method url body ct server w =
      ({ w with log := (w.log ++ [requestLogLine method url w]) ++ unauthorizedLog e,
                trace := w.trace ++ [.httpCall (sentRequest method url body ct w)] },
       .err e) := by
  unfold sentRequest at h
  unfold apiRequest
  simp only [requestInterceptor, responseErrorInterceptor] at h ⊢
  rw [h]
  simp [sentRequest, requestInterceptor, mkRequest]

theorem login_ok {email password : String} {server : Request → HttpOutcome LoginData}
    {w : World} {d : LoginData}
    (h : server (loginSentRequest email password w) = .ok d) :
    login email password server true true w =
      ({ w with user := some d.user,
                token := some d.access_token,
                authToken := some d.access_token,
                storageToken := some d.access_token,
                storageUser := some (.valid d.user),
                log := w.log ++ [requestLogLine "POST" "/auth/login" w,
                                 authTokenLog (some d.access_token)],
                trace := w.trace ++
                  [.httpCall (loginSentRequest email password w),
                   .storeSet TOKEN_KEY, .storeSet USER_KEY,
                   .clientToken (some d.access_token),
                   .stateToken (some d.access_token),
                   .stateUser (some d.user)] },
       .ok ()) := by
  unfold loginSentRequest at h
  unfold login
  rw [apiRequest_ok h]
  simp [setAuthToken, setToken, setUser, loginSentRequest, List.append_assoc]

theorem login_err {email password : String} {server : Request → HttpOutcome LoginData}
    {w : World} {e : ApiError} (o1 o2 : Bool)
    (h : server (loginSentRequest email password w) = .err e) :
    login email password server o1 o2 w =
      ({ w with log := (w.log ++ [requestLogLine "POST" "/auth/login" w])
                         ++ unauthorizedLog e,
                trace := w.trace ++ [.httpCall (loginSentRequest email password w)] },
       .error (detailOr e "Login failed")) := by
  unfold loginSentRequest at h
  unfold login
  rw [apiRequest_err h]
  simp [loginSentRequest]

theorem login_storeTokenFail {email password : String}
    {server : Request → HttpOutcome LoginData} {w : World} {d : LoginData} (o2 : Bool)
    (h : server (loginSentRequest email password w) = .ok d) :
    login email password server false o2 w =
      ({ w with log := w.log ++ [requestLogLine "POST" "/auth/login" w],
                trace := w.trace ++ [.httpCall (loginSentRequest email password w)] },
       .error "Login failed") := by
  unfold loginSentRequest at h
  unfold login
  rw [apiRequest_ok h]
  simp [loginSentRequest]

theorem login_storeUserFail {email password : String}
    {server : Request → HttpOutcome LoginData} {w : World} {d : LoginData}
    (h : server (loginSentRequest email password w) = .ok d) :
    login email password server true false w =
      ({ w with storageToken := some d.access_token,
                log := w.log ++ [requestLogLine "POST" "/auth/login" w],
                trace := w.trace ++ [.httpCall (loginSentRequest email password w),
                                     .storeSet TOKEN_KEY] },
       .error "Login failed") := by
  unfold loginSentRequest at h
  unfold login
  rw [apiRequest_ok h]
  simp [loginSentRequest, List.append_assoc]

theorem setIsLoading_inv {b : Bool} {w : World} (h : SessionInv w) :
    SessionInv (setIsLoading b w) := h

theorem apiRequest_fst_inv {α : Type} {m u : String} {b : Body} {ct : String}
    {server : Request → HttpOutcome α} {w : World}
    (h : SessionInv w) : SessionInv (apiRequest m u b ct server w).1 := by
  rcases hs : server (sentRequest m u b ct w) with ⟨v⟩ | ⟨e⟩
  · rw [apiRequest_ok hs]; exact h
  · rw [apiRequest_err hs]; exact h

theorem login_inv (email password : String) (server : Request → HttpOutcome LoginData)
    (o1 o2 : Bool) (w : World) (h : SessionInv w) :
    SessionInv (login email password server o1 o2 w).1 := by
  rcases hs : server (loginSentRequest email password w) with ⟨d⟩ | ⟨e⟩
  · cases o1 with
    | false => rw [login_storeTokenFail o2 hs]; exact h
    | true =>
      cases o2 with
      | false => rw [login_storeUserFail hs]; exact h
      | true => rw [login_ok hs]; exact ⟨by simp, trivial⟩
  · rw [login_err o1 o2 hs]; exact h

theorem register_inv (d : RegisterData) (rs : Request → HttpOutcome Unit)
    (ls : Request → HttpOutcome LoginData) (o1 o2 : Bool) (w : World)
    (h : SessionInv w) : SessionInv (register d rs ls o1 o2 w).1 := by
  unfold register
  rcases hr : apiRequest "POST" "/auth/register" (.jsonRegister d) "application/json" rs w
    with ⟨w1, r⟩
  have hw1 : SessionInv w1 := by
    have h' := @apiRequest_fst_inv Unit "POST" "/auth/register"
      (.jsonRegister d) "application/json" rs w h
    rw [hr] at h'
    exact h'
  cases r with
  | err e => exact hw1
  | ok v =>
    simp only []
    rcases hl : login d.email d.password ls o1 o2 w1 with ⟨w2, r2⟩
    have hw2 : SessionInv w2 := by
      have h' := login_inv d.email d.password ls o1 o2 w1 hw1
      rw [hl] at h'
      exact h'
    cases r2 with
    | ok u => exact hw2
    | error s => exact hw2

theorem logout_inv (o1 o2 : Bool) (w : World) (h : SessionInv w) :
    SessionInv (logout o1 o2 w) := by
  unfold logout
  cases o1 with
  | false => exact h
  | true =>
    cases o2 with
    | false => exact ⟨h.1, h.2⟩
    | true => exact ⟨by simp [setUser, setToken, setAuthToken], trivial⟩

theorem updateUser_inv (p : UserPatch) (o : Bool) (w : World) (h : SessionInv w) :
    SessionInv (updateUser p o w) := by
  rcases h with ⟨h1, h2⟩
  unfold updateUser
  rcases hu : w.user with _ | u
  · exact ⟨h1, h2⟩
  · rw [hu] at h1
    simp only [Option.some_ne_none, iff_false] at h1
    cases o with
    | false => exact ⟨by simp [setUser, h1], h2⟩
    | true => exact ⟨by simp [setUser, h1], trivial⟩

theorem loadStoredAuth_inv (r1 r2 : Bool) (w : World) (h : SessionInv w) :
    SessionInv (loadStoredAuth r1 r2 w) := by
  rcases h with ⟨h1, h2⟩
  unfold loadStoredAuth
  apply setIsLoading_inv
  cases r1 with
  | false => exact ⟨h1, h2⟩
  | true =>
    cases r2 with
    | false => exact ⟨h1, h2⟩
    | true =>
      rcases hst : w.storageToken with _ | tok <;> rcases hsu : w.storageUser with _ | su
      · exact ⟨h1, h2⟩
      · exact ⟨h1, h2⟩
      · exact ⟨h1, h2⟩
      · cases su with
        | malformed n =>
          rw [hsu] at h2
          exact False.elim h2
        | valid u =>
          by_cases he : tok.isEmpty = true
          · simp only [he, if_true, reduceIte]
            exact ⟨h1, h2⟩
          · simp only [he, if_false, reduceIte, parseStored]
            exact ⟨by simp [setToken, setUser, setAuthToken], h2⟩

theorem runOp_inv (op : Op) (w : World) (h : SessionInv w) : SessionInv (runOp op w) := by
  cases op with
  | load r1 r2 => exact loadStoredAuth_inv r1 r2 w h
  | doLogin e p s o1 o2 => exact login_inv e p s o1 o2 w h
  | doRegister d rs ls o1 o2 => exact register_inv d rs ls o1 o2 w h
  | doLogout o1 o2 => exact logout_inv o1 o2 w h
  | doUpdateUser p o => exact updateUser_inv p o w h
  | restartApp => exact ⟨by simp [runOp], h.2⟩

theorem runOps_inv (ops : List Op) (w : World) (h : SessionInv w) :
    SessionInv (runOps ops w) := by
  induction ops generalizing w with
  | nil => exact h
  | cons op rest ih => exact ih (runOp op w) (runOp_inv op w h)

theorem initialWorld_inv : SessionInv initialWorld := ⟨by simp [initialWorld], trivial⟩

theorem loginSentRequest_spec (email password : String) (w : World) :
    (loginSentRequest email password w).url = "/auth/login" ∧
    (loginSentRequest email password w).method = "POST" ∧
    (loginSentRequest email password w).contentType = "application/x-www-form-urlencoded" ∧
    (loginSentRequest email password w).body = .form [("username", email), ("password", password)] := by
  unfold loginSentRequest sentRequest requestInterceptor mkRequest loginFormParams
  rcases w.authToken with _ | t
  · exact ⟨rfl, rfl, rfl, rfl⟩
  · by_cases h : t.isEmpty = true <;> simp [h]

/-- C1: after any completed sequence of session operations starting from the
initial app state (including process restarts, arbitrary server responses
and arbitrary storage failures), the in-memory token and user are either
both non-null or both null: no operation leaves a user without a token or
a token without a user. -/
theorem c1_session_invariant (ops : List Op) :
    ((runOps ops initialWorld).token = none ↔ (runOps ops initialWorld).user = none) :=
  (runOps_inv ops initialWorld initialWorld_inv).1

/-- C2 (amended): for every successful login, the credentials are sent
form-urlencoded with username/password fields (not JSON) to `/auth/login`;
the returned access token and user record are both written to secure
storage; the HTTP client token is set strictly before the in-memory state
is updated (visible in the event trace); and afterwards the in-memory user
equals the server's user record and — provided the returned access token
is a non-empty string — `isAuthenticated` is true. -/
theorem c2_login_success (email password : String)
    (server : Request → HttpOutcome LoginData) (w : World) (d : LoginData)
    (hs : server (loginSentRequest email password w) = .ok d)
    (ht : d.access_token ≠ "") :
    (login email password server true true w).2 = .ok () ∧
    (loginSentRequest email password w).url = "/auth/login" ∧
    (loginSentRequest email password w).contentType = "application/x-www-form-urlencoded" ∧
    (loginSentRequest email password w).body = .form [("username", email), ("password", password)] ∧
    (login email password server true true w).1.storageToken = some d.access_token ∧
    (login email password server true true w).1.storageUser = some (.valid d.user) ∧
    (login email password server true true w).1.trace = w.trace ++
      [.httpCall (loginSentRequest email password w),
       .storeSet TOKEN_KEY, .storeSet USER_KEY,
       .clientToken (some d.access_token),
       .stateToken (some d.access_token),
       .stateUser (some d.user)] ∧
    isAuthenticated (login email password server true true w).1 = true ∧
    (login email password server true true w).1.user = some d.user ∧
    (login email password server true true w).1.authToken = some d.access_token := by
  obtain ⟨hurl, _, hct, hbody⟩ := loginSentRequest_spec email password w
  rw [login_ok hs]
  refine ⟨rfl, hurl, hct, hbody, rfl, rfl, rfl, ?_, rfl, rfl⟩
  have hf : d.access_token.isEmpty = false := by
    rw [Bool.eq_false_iff]
    intro hemp
    exact ht ((String.isEmpty_iff _).mp hemp)
  simp [isAuthenticated, truthyStr, hf]

/-- C2 witness: the spec scenario, run concretely against the stub that
returns token `tok1` and user 7. -/
theorem c2_login_success_witness :
    (login "user@example.com" "secret123" stubOk true true initialWorld).2 = .ok () ∧
    isAuthenticated (login "user@example.com" "secret123" stubOk true true initialWorld).1 = true ∧
    (login "user@example.com" "secret123" stubOk true true initialWorld).1.user = some u7 := by
  have h := c2_login_success "user@example.com" "secret123" stubOk initialWorld d7
    rfl (by decide)
  exact ⟨h.1, h.2.2.2.2.2.2.2.1, h.2.2.2.2.2.2.2.2.1⟩

/-- C2 counterexample: the claim as stated fails when the server returns an
empty-string access token: the login resolves successfully, yet
`isAuthenticated` (which is `!!token` in the source) is false afterwards. -/
theorem c2_counterexample :
    (login "user@example.com" "secret123" stubEmptyToken true true initialWorld).2 = .ok () ∧
    isAuthenticated (login "user@example.com" "secret123" stubEmptyToken true true initialWorld).1
      = false := by
  constructor <;> rfl

/-- C3 (amended): for every failing login the in-memory token and user and
the HTTP client token are unchanged and the caller receives an error whose
message is the server's detail field when present and non-empty, otherwise
the generic `Login failed`.  When the HTTP call itself rejects, or the
first storage write throws, the persisted records are also unchanged; but
when the second storage write throws after the HTTP call succeeded, the
persisted token record has already been overwritten with the new token. -/
theorem c3_login_failure (email password : String)
    (server : Request → HttpOutcome LoginData) (w : World) :
    (∀ (e : ApiError) (o1 o2 : Bool),
      server (loginSentRequest email password w) = .err e →
        (login email password server o1 o2 w).2 = .error (detailOr e "Login failed") ∧
        (login email password server o1 o2 w).1.token = w.token ∧
        (login email password server o1 o2 w).1.user = w.user ∧
        (login email password server o1 o2 w).1.authToken = w.authToken ∧
        (login email password server o1 o2 w).1.storageToken = w.storageToken ∧
        (login email password server o1 o2 w).1.storageUser = w.storageUser) ∧
    (∀ (e : ApiError) (s : String), e.detail = some s → s ≠ "" →
        detailOr e "Login failed" = s) ∧
    (∀ e : ApiError, e.detail = none → detailOr e "Login failed" = "Login failed") ∧
    (∀ (d : LoginData) (o2 : Bool),
      server (loginSentRequest email password w) = .ok d →
        (login email password server false o2 w).2 = .error "Login failed" ∧
        (login email password server false o2 w).1.token = w.token ∧
        (login email password server false o2 w).1.user = w.user ∧
        (login email password server false o2 w).1.authToken = w.authToken ∧
        (login email password server false o2 w).1.storageToken = w.storageToken ∧
        (login email password server false o2 w).1.storageUser = w.storageUser) ∧
    (∀ d : LoginData,
      server (loginSentRequest email password w) = .ok d →
        (login email password server true false w).2 = .error "Login failed" ∧
        (login email password server true false w).1.token = w.token ∧
        (login email password server true false w).1.user = w.user ∧
        (login email password server true false w).1.authToken = w.authToken ∧
        (login email password server true false w).1.storageUser = w.storageUser ∧
        (login email password server true false w).1.storageToken = some d.access_token) := by
  refine ⟨?_, ?_, ?_, ?_, ?_⟩
  · intro e o1 o2 hs
    rw [login_err o1 o2 hs]
    exact ⟨rfl, rfl, rfl, rfl, rfl, rfl⟩
  · intro e s hd hne
    unfold detailOr
    rw [hd]
    have hf : s.isEmpty = false := by
      rw [Bool.eq_false_iff]
      intro hemp
      exact hne ((String.isEmpty_iff _).mp hemp)
    simp [hf]
  · intro e hd
    unfold detailOr
    rw [hd]
  · intro d o2 hs
    rw [login_storeTokenFail o2 hs]
    exact ⟨rfl, rfl, rfl, rfl, rfl, rfl⟩
  · intro d hs
    rw [login_storeUserFail hs]
    exact ⟨rfl, rfl, rfl, rfl, rfl, rfl⟩

/-- C3 witness: a concrete rejected login against the stub answering 401
with detail `Invalid credentials` leaves the session untouched and
surfaces the detail message. -/
theorem c3_login_failure_witness :
    (login "user@example.com" "secret123" stubInvalid true true initialWorld).2
      = .error "Invalid credentials" ∧
    (login "user@example.com" "secret123" stubInvalid true true initialWorld).1.token = none ∧
    (login "user@example.com" "secret123" stubInvalid true true initialWorld).1.storageToken
      = none := by
  have h := (c3_login_failure "user@example.com" "secret123" stubInvalid initialWorld).1
    { status := some 401, detail := some "Invalid credentials" } true true rfl
  exact ⟨h.1, h.2.1, h.2.2.2.2.1⟩

/-- C3 counterexample: a login in which the HTTP call succeeds but the
second storage write throws is a failing login (the caller gets an error),
yet the persisted token record has changed from `none` to the new token —
refuting the claim that the persisted storage records are always
unchanged. -/
theorem c3_counterexample :
    (login "user@example.com" "secret123" stubOk true false initialWorld).2
      = .error "Login failed" ∧
    (login "user@example.com" "secret123" stubOk true false initialWorld).1.storageToken
      = some "tok1" ∧
    initialWorld.storageToken = none :=
  ⟨rfl, rfl, rfl⟩

/-- C4 (amended): `loadStoredAuth` at process start: if both records are
present, the stored token is non-empty and the stored user record is
well-formed JSON, it sets the HTTP client token and the in-memory token
and user to the stored values; if either record is absent (or the stored
token is the JS-falsy empty string) it leaves the session fully logged
out; if both are present but the stored user record is malformed, the
in-memory token is set while the user and client token stay null; and in
every case — including storage read errors — it terminates with the
loading flag cleared. -/
theorem c4_load_stored_auth (st : Option String) (su : Option StoredUser) (r1 r2 : Bool) :
    ((loadStoredAuth r1 r2
        { initialWorld with storageToken := st, storageUser := su }).isLoading = false) ∧
    (∀ (tok : String) (u : User), st = some tok → tok ≠ "" → su = some (.valid u) →
      (loadStoredAuth true true
          { initialWorld with storageToken := st, storageUser := su }).token = some tok ∧
      (loadStoredAuth true true
          { initialWorld with storageToken := st, storageUser := su }).user = some u ∧
      (loadStoredAuth true true
          { initialWorld with storageToken := st, storageUser := su }).authToken = some tok) ∧
    ((truthyStr st = false ∨ su = none) →
      (loadStoredAuth true true
          { initialWorld with storageToken := st, storageUser := su }).token = none ∧
      (loadStoredAuth true true
          { initialWorld with storageToken := st, storageUser := su }).user = none ∧
      (loadStoredAuth true true
          { initialWorld with storageToken := st, storageUser := su }).authToken = none) ∧
    (∀ (tok : String) (n : Nat), st = some tok → tok ≠ "" → su = some (.malformed n) →
      (loadStoredAuth true true
          { initialWorld with storageToken := st, storageUser := su }).token = some tok ∧
      (loadStoredAuth true true
          { initialWorld with storageToken := st, storageUser := su }).user = none ∧
      (loadStoredAuth true true
          { initialWorld with storageToken := st, storageUser := su }).authToken = none) ∧
    ((r1 = false ∨ r2 = false) →
      (loadStoredAuth r1 r2
          { initialWorld with storageToken := st, storageUser := su }).token = none ∧
      (loadStoredAuth r1 r2
          { initialWorld with storageToken := st, storageUser := su }).user = none ∧
      (loadStoredAuth r1 r2
          { initialWorld with storageToken := st, storageUser := su }).authToken = none) := by
  refine ⟨rfl, ?_, ?_, ?_, ?_⟩
  · intro tok u h1 h2 h3
    subst h1
    subst h3
    have hf : tok.isEmpty = false := by
      rw [Bool.eq_false_iff]
      intro hemp
      exact h2 ((String.isEmpty_iff _).mp hemp)
    unfold loadStoredAuth
    simp [hf, setIsLoading, setToken, setUser, setAuthToken, parseStored, initialWorld]
  · intro h
    rcases st with _ | tok <;> rcases su with _ | su
    · exact ⟨rfl, rfl, rfl⟩
    · exact ⟨rfl, rfl, rfl⟩
    · exact ⟨rfl, rfl, rfl⟩
    · rcases h with h | h
      · have he : tok.isEmpty = true := by
          simpa [truthyStr] using h
        unfold loadStoredAuth
        simp [he, setIsLoading, initialWorld]
      · exact absurd h (by simp)
  · intro tok n h1 h2 h3
    subst h1
    subst h3
    have hf : tok.isEmpty = false := by
      rw [Bool.eq_false_iff]
      intro hemp
      exact h2 ((String.isEmpty_iff _).mp hemp)
    unfold loadStoredAuth
    simp [hf, setIsLoading, setToken, setUser, setAuthToken, parseStored, initialWorld]
  · intro h
    rcases h with h | h <;> subst h
    · exact ⟨rfl, rfl, rfl⟩
    · cases r1 <;> exact ⟨rfl, rfl, rfl⟩

/-- C4 witness: with both records present, a non-empty token and a
well-formed user record, restoration authenticates with the stored
values. -/
theorem c4_load_stored_auth_witness :
    (loadStoredAuth true true
        { initialWorld with storageToken := some "tok1",
                            storageUser := some (.valid u7) }).token = some "tok1" ∧
    (loadStoredAuth true true
        { initialWorld with storageToken := some "tok1",
                            storageUser := some (.valid u7) }).user = some u7 ∧
    (loadStoredAuth true true
        { initialWorld with storageToken := some "tok1",
                            storageUser := some (.valid u7) }).authToken = some "tok1" := by
  have h := (c4_load_stored_auth (some "tok1") (some (.valid u7)) true true).2.1
    "tok1" u7 rfl (by decide) rfl
  exact h

/-- C4 counterexample: with both records present but a malformed persisted
user record, the operation neither sets both stored values nor leaves the
session logged out: the in-memory token is set while the user stays null
(since `setToken` runs before `JSON.parse` throws). -/
theorem c4_counterexample :
    (loadStoredAuth true true
        { initialWorld with storageToken := some "tok1",
                            storageUser := some (.malformed 0) }).token = some "tok1" ∧
    (loadStoredAuth true true
        { initialWorld with storageToken := some "tok1",
                            storageUser := some (.malformed 0) }).user = none ∧
    (loadStoredAuth true true
        { initialWorld with storageToken := some "tok1",
                            storageUser := some (.malformed 0) }).authToken = none :=
  ⟨rfl, rfl, rfl⟩

/-- C5 (amended): on success of the registration endpoint, `register`
immediately performs `login` with the same email and password
(registration alone never establishes a session: the final state is
exactly the state of that internal login), and a successful internal login
makes `register` resolve; but if the internal login fails, the caller
receives the generic `Registration failed` message — the login error's
message is not propagated, because the rethrown `Error` carries no
`response` payload for the outer catch to read a detail from. -/
theorem c5_register (d : RegisterData) (regServer : Request → HttpOutcome Unit)
    (loginServer : Request → HttpOutcome LoginData) (o1 o2 : Bool) (w : World)
    (hreg : regServer (sentRequest "POST" "/auth/register" (.jsonRegister d)
        "application/json" w) = .ok ()) :
    (register d regServer loginServer o1 o2 w).1 =
      (login d.email d.password loginServer o1 o2
        (apiRequest "POST" "/auth/register" (.jsonRegister d) "application/json"
          regServer w).1).1 ∧
    ((login d.email d.password loginServer o1 o2
        (apiRequest "POST" "/auth/register" (.jsonRegister d) "application/json"
          regServer w).1).2 = .ok () →
      (register d regServer loginServer o1 o2 w).2 = .ok ()) ∧
    (∀ s : String,
      (login d.email d.password loginServer o1 o2
        (apiRequest "POST" "/auth/register" (.jsonRegister d) "application/json"
          regServer w).1).2 = .error s →
      (register d regServer loginServer o1 o2 w).2 = .error "Registration failed") := by
  unfold register
  rw [apiRequest_ok hreg]
  simp only []
  rcases hl : login d.email d.password loginServer o1 o2
      { w with log := w.log ++ [requestLogLine "POST" "/auth/register" w],
               trace := w.trace ++ [.httpCall (sentRequest "POST" "/auth/register"
                 (.jsonRegister d) "application/json" w)] } with ⟨w2, r2⟩
  cases r2 with
  | ok v =>
    refine ⟨rfl, fun _ => rfl, fun s hs => ?_⟩
    simp at hs
  | error s =>
    refine ⟨rfl, fun hok => ?_, fun s hs => rfl⟩
    simp at hok

/-- C5 witness: concrete registration followed by a successful internal
login resolves successfully. -/
theorem c5_register_witness :
    (register regData0 regStubOk stubOk true true initialWorld).2 = .ok () := by
  have h := c5_register regData0 regStubOk stubOk true true initialWorld rfl
  exact h.2.1 rfl

/-- C5 counterexample: the registration endpoint accepts, the internal
login is rejected with detail `Invalid credentials` (and `login` itself
would surface exactly that message), yet `register` surfaces the generic
`Registration failed` — refuting the claim that the login failure's
message reaches the caller. -/
theorem c5_counterexample :
    (register regData0 regStubOk stubInvalid true true initialWorld).2
      = .error "Registration failed" ∧
    (login regData0.email regData0.password stubInvalid true true
      (apiRequest "POST" "/auth/register" (.jsonRegister regData0) "application/json"
        regStubOk initialWorld).1).2 = .error "Invalid credentials" :=
  ⟨rfl, rfl⟩

/-- C6: `logout` (under normal storage operation, both deletes
succeeding) performs its effects in the order: delete the persisted token
record, delete the persisted user record, clear the HTTP client token,
clear the in-memory token, clear the in-memory user; and for every
sequence of `login` followed by `logout` — whatever the server answered
and whether or not the login's storage writes succeeded — the final state
is logged out with no client token and no persisted records. -/
theorem c6_logout_clears_everything (w : World) (email password : String)
    (server : Request → HttpOutcome LoginData) (o1 o2 : Bool) :
    (logout true true w).trace = w.trace ++
      [.storeDelete TOKEN_KEY, .storeDelete USER_KEY,
       .clientToken none, .stateToken none, .stateUser none] ∧
    (logout true true w).storageToken = none ∧
    (logout true true w).storageUser = none ∧
    (logout true true w).authToken = none ∧
    (logout true true w).token = none ∧
    (logout true true w).user = none ∧
    (logout true true (login email password server o1 o2 w).1).token = none ∧
    (logout true true (login email password server o1 o2 w).1).user = none ∧
    (logout true true (login email password server o1 o2 w).1).authToken = none ∧
    (logout true true (login email password server o1 o2 w).1).storageToken = none ∧
    (logout true true (login email password server o1 o2 w).1).storageUser = none ∧
    isAuthenticated (logout true true (login email password server o1 o2 w).1) = false := by
  refine ⟨?_, rfl, rfl, rfl, rfl, rfl, rfl, rfl, rfl, rfl, rfl, rfl⟩
  simp [logout, setUser, setToken, setAuthToken, List.append_assoc]

/-- C7 (amended): the request interceptor reads the module-level token at
send time: if the token is non-null and non-empty it sets the
Authorization header to `Bearer <token>`, while a null — or JS-falsy
empty — token leaves the request without one; every fresh request built
after a successful login carrying a non-empty access token bears that
token, and every fresh request built after logout has no Authorization
header. -/
theorem c7_send_time_token (req : Request) (w : World) (meth u2 : String)
    (body : Body) (ct : String) :
    (∀ t : String, w.authToken = some t → t ≠ "" →
      (requestInterceptor req w).1 = { req with authorization := some ("Bearer " ++ t) }) ∧
    (truthyStr w.authToken = false → (requestInterceptor req w).1 = req) ∧
    (∀ (email password : String) (server : Request → HttpOutcome LoginData) (d : LoginData),
      server (loginSentRequest email password w) = .ok d → d.access_token ≠ "" →
      (requestInterceptor (mkRequest meth u2 body ct)
        (login email password server true true w).1).1.authorization
        = some ("Bearer " ++ d.access_token)) ∧
    ((requestInterceptor (mkRequest meth u2 body ct) (logout true true w)).1.authorization
      = none) := by
  refine ⟨?_, ?_, ?_, rfl⟩
  · intro t ht hne
    have hf : t.isEmpty = false := by
      rw [Bool.eq_false_iff]
      intro hemp
      exact hne ((String.isEmpty_iff _).mp hemp)
    unfold requestInterceptor
    rw [ht]
    simp [hf]
  · intro h
    rcases hat : w.authToken with _ | t
    · unfold requestInterceptor
      rw [hat]
    · rw [hat] at h
      have he : t.isEmpty = true := by simpa [truthyStr] using h
      unfold requestInterceptor
      rw [hat]
      simp [he]
  · intro email password server d hs hne
    have hf : d.access_token.isEmpty = false := by
      rw [Bool.eq_false_iff]
      intro hemp
      exact hne ((String.isEmpty_iff _).mp hemp)
    rw [login_ok hs]
    unfold requestInterceptor
    simp [hf]

/-- C7 witness: after the concrete spec-scenario login, a fresh facade
request carries `Authorization: Bearer tok1`. -/
theorem c7_send_time_token_witness :
    (requestInterceptor (mkRequest "GET" "/timesheets/" .empty "application/json")
      (login "user@example.com" "secret123" stubOk true true initialWorld).1).1.authorization
      = some "Bearer tok1" := by
  have h := (c7_send_time_token (mkRequest "GET" "/timesheets/" .empty "application/json")
      initialWorld "GET" "/timesheets/" .empty "application/json").2.2.1
    "user@example.com" "secret123" stubOk d7 rfl (by decide)
  simpa using h

/-- C7 counterexample: with the module token equal to the non-null empty
string, the interceptor attaches no Authorization header — refuting the
claim that any non-null token is attached. -/
theorem c7_counterexample :
    ({ initialWorld with authToken := some "" } : World).authToken.isSome = true ∧
    (requestInterceptor (mkRequest "GET" "/timesheets/" .empty "application/json")
      { initialWorld with authToken := some "" }).1.authorization = none :=
  ⟨rfl, rfl⟩

/-- C8: on a 401 (and indeed any) rejection, the response interceptor
forwards the very same error to the caller and mutates no session state —
neither the in-memory session, nor the module token, nor storage (it only
logs); and a whole `apiRequest` round trip whose server rejects forwards
the rejection unchanged with the session state intact: the client never
swallows an error response. -/
theorem c8_response_interceptor_forwards (e : ApiError) (w : World)
    (_h401 : e.status = some 401) :
    (responseErrorInterceptor e w).2 = e ∧
    (responseErrorInterceptor e w).1.token = w.token ∧
    (responseErrorInterceptor e w).1.user = w.user ∧
    (responseErrorInterceptor e w).1.authToken = w.authToken ∧
    (responseErrorInterceptor e w).1.storageToken = w.storageToken ∧
    (responseErrorInterceptor e w).1.storageUser = w.storageUser ∧
    (responseErrorInterceptor e w).1.trace = w.trace ∧
    (∀ (α : Type) (meth u2 : String) (body : Body) (ct : String)
        (server : Request → HttpOutcome α),
      server (sentRequest meth u2 body ct w) = .err e →
        (apiRequest meth u2 body ct server w).2 = .err e ∧
        (apiRequest meth u2 body ct server w).1.token = w.token ∧
        (apiRequest meth u2 body ct server w).1.user = w.user ∧
        (apiRequest meth u2 body ct server w).1.authToken = w.authToken ∧
        (apiRequest meth u2 body ct server w).1.storageToken = w.storageToken ∧
        (apiRequest meth u2 body ct server w).1.storageUser = w.storageUser) := by
  refine ⟨rfl, rfl, rfl, rfl, rfl, rfl, rfl, ?_⟩
  intro α meth u2 body ct server hs
  rw [apiRequest_err hs]
  exact ⟨rfl, rfl, rfl, rfl, rfl, rfl⟩

/-- C8 witness: a concrete 401 rejection is forwarded unchanged through
the interceptor and through a whole round trip, with session state
untouched. -/
theorem c8_response_interceptor_forwards_witness :
    (responseErrorInterceptor err401 initialWorld).2 = err401 ∧
    (apiRequest "GET" "/timesheets/" .empty "application/json" errStub initialWorld).2
      = .err err401 ∧
    (apiRequest "GET" "/timesheets/" .empty "application/json" errStub initialWorld).1.authToken
      = none := by
  have h := c8_response_interceptor_forwards err401 initialWorld rfl
  have h2 := h.2.2.2.2.2.2.2 Unit "GET" "/timesheets/" .empty "application/json" errStub rfl
  exact ⟨h.1, h2.1, h2.2.2.2.1⟩

/-- C9: `updateUser` with a logged-in user merges the partial fields into
the in-memory user and persists exactly the merged record, performs no
HTTP call (the trace gains only the state update and the storage write),
and leaves the in-memory token, the client token, the persisted token
record, and every user field not named in the patch unchanged. -/
theorem c9_update_user (p : UserPatch) (w : World) (u : User) (h : w.user = some u) :
    (updateUser p true w).user = some (mergeUser u p) ∧
    (updateUser p true w).storageUser = some (.valid (mergeUser u p)) ∧
    (updateUser p true w).token = w.token ∧
    (updateUser p true w).authToken = w.authToken ∧
    (updateUser p true w).storageToken = w.storageToken ∧
    (updateUser p true w).trace = w.trace ++
      [.stateUser (some (mergeUser u p)), .storeSet USER_KEY] ∧
    (updateUser p true w).trace.filter isHttpCall = w.trace.filter isHttpCall ∧
    (p.id = none → (mergeUser u p).id = u.id) ∧
    (p.email = none → (mergeUser u p).email = u.email) ∧
    (p.first_name = none → (mergeUser u p).first_name = u.first_name) ∧
    (p.surname = none → (mergeUser u p).surname = u.surname) ∧
    (p.phone = none → (mergeUser u p).phone = u.phone) ∧
    (p.role = none → (mergeUser u p).role = u.role) := by
  unfold updateUser
  rw [h]
  simp only [setUser]
  refine ⟨rfl, rfl, rfl, rfl, rfl, by simp [List.append_assoc], ?_,
    ?_, ?_, ?_, ?_, ?_, ?_⟩
  · simp [List.filter_append, isHttpCall]
  · intro hx; simp [mergeUser, hx]
  · intro hx; simp [mergeUser, hx]
  · intro hx; simp [mergeUser, hx]
  · intro hx; simp [mergeUser, hx]
  · intro hx; simp [mergeUser, hx]
  · intro hx; simp [mergeUser, hx]

/-- C9 witness: the spec scenario — a phone-only patch while logged in as
user 7 updates the in-memory and persisted user and keeps the token. -/
theorem c9_update_user_witness :
    (updateUser { phone := some "0400000000" } true
      { initialWorld with
          user := some u7, token := some "tok1", authToken := some "tok1",
          storageToken := some "tok1", storageUser := some (.valid u7) }).user
      = some (mergeUser u7 { phone := some "0400000000" }) ∧
    (updateUser { phone := some "0400000000" } true
      { initialWorld with
          user := some u7, token := some "tok1", authToken := some "tok1",
          storageToken := some "tok1", storageUser := some (.valid u7) }).storageUser
      = some (.valid (mergeUser u7 { phone := some "0400000000" })) ∧
    (updateUser { phone := some "0400000000" } true
      { initialWorld with
          user := some u7, token := some "tok1", authToken := some "tok1",
          storageToken := some "tok1", storageUser := some (.valid u7) }).token = some "tok1" := by
  have h := c9_update_user { phone := some "0400000000" }
    { initialWorld with
        user := some u7, token := some "tok1", authToken := some "tok1",
        storageToken := some "tok1", storageUser := some (.valid u7) } u7 rfl
  exact ⟨h.1, h.2.1, h.2.2.1⟩

/-- C10: `logout` always resolves (in the model its result type carries no
error case, mirroring the catch-all in the source), and when a
secure-storage delete throws, every remaining step is skipped: the HTTP
client token and the in-memory token and user keep their prior values, so
the session still appears exactly as authenticated as before. -/
theorem c10_logout_swallow_errors (w : World) (o2 : Bool) :
    (logout false o2 w).token = w.token ∧
    (logout false o2 w).user = w.user ∧
    (logout false o2 w).authToken = w.authToken ∧
    (logout false o2 w).storageToken = w.storageToken ∧
    (logout false o2 w).storageUser = w.storageUser ∧
    (logout false o2 w).trace = w.trace ∧
    isAuthenticated (logout false o2 w) = isAuthenticated w ∧
    (logout true false w).token = w.token ∧
    (logout true false w).user = w.user ∧
    (logout true false w).authToken = w.authToken ∧
    (logout true false w).storageUser = w.storageUser ∧
    (logout true false w).storageToken = none ∧
    isAuthenticated (logout true false w) = isAuthenticated w :=
  ⟨rfl, rfl, rfl, rfl, rfl, rfl, rfl, rfl, rfl, rfl, rfl, rfl, rfl⟩
